import Mathlib

/-!
Shallow embedding of the cpx file-copy utility (src/main.rs) and proofs of
the specification claims about it.

Modelling conventions:
- Rust `PathBuf` is modelled as an absoluteness flag plus a list of path
  components; `Path::join` replaces the whole path when the argument is
  absolute, otherwise appends components, exactly as in Rust.
- Rust `HashMap<String, V>` is modelled as an association list with
  first-match lookup (key uniqueness is irrelevant to the claims).
- Rust `HashSet<FileInfo>` (with derived Eq/Hash, i.e. equality by the only
  field `relative_path`) is modelled as a duplicate-free list built by
  insertion in first-occurrence order.
- Panics via `.expect(..)` are modelled as `Except CpxError`: the three
  panic sites of the program become the three constructors of `CpxError`.
- The filesystem is modelled as an oracle `fs : PathBuf -> PathBuf -> Bool`
  telling whether `std::fs::copy src dst` succeeds; the executor records the
  report lines printed to stdout, the copy calls attempted, and the failure
  lines printed to stderr (the Rust error payload `{:?}` is abstracted away).
-/

/-- Model of Rust `PathBuf`: an absoluteness flag and a list of components. -/
structure PathBuf where
  absolute : Bool
  components : List String
deriving DecidableEq

/-- Rust `Path::join`: an absolute right operand replaces the whole path,
otherwise its components are appended. -/
def PathBuf.join (a b : PathBuf) : PathBuf :=
  if b.absolute then b else ⟨a.absolute, a.components ++ b.components⟩

/-- Rendering of a path for report lines (models `Path::display`). -/
def PathBuf.display (p : PathBuf) : String :=
  (if p.absolute then "/" else "") ++ String.intercalate "/" p.components

/-- Normalisation of a component list: `..` pops the last kept component,
`.` is dropped. Used only to state path-containment (claim about traversal). -/
def normComps (cs : List String) : List String :=
  cs.foldl (fun acc c => if c = ".." then acc.dropLast else if c = "." then acc else acc ++ [c]) []

/-- Boolean list-leading test: `isLeading a b` holds when `a` is an initial
segment of `b`. -/
def isLeading : List String → List String → Bool
  | [], _ => true
  | _ :: _, [] => false
  | a :: as, b :: bs => a == b && isLeading as bs

/-- `isInside base p`: after normalisation, `p` lies inside `base`. -/
def isInside (base p : PathBuf) : Bool :=
  base.absolute == p.absolute && isLeading (normComps base.components) (normComps p.components)

/-- Rust struct `PathInfo`. -/
structure PathInfo where
  path : PathBuf
deriving DecidableEq

/-- Rust struct `TagInfo`. -/
structure TagInfo where
  file_list : Option (List String)
  script_list : Option (List String)
deriving DecidableEq

/-- Rust struct `FileInfo`; derived Eq/Hash make equality by `relative_path`. -/
structure FileInfo where
  relative_path : PathBuf
deriving DecidableEq

/-- Rust struct `ScriptInfo` (opaque pass-through data, never executed). -/
structure ScriptInfo where
  fromPath : PathBuf
  toPath : PathBuf
deriving DecidableEq

/-- Association-list lookup, modelling `HashMap::get`. -/
def lookupA {α : Type} (l : List (String × α)) (k : String) : Option α :=
  (l.find? (fun p => p.1 == k)).map (fun p => p.2)

/-- Rust struct `ConfigInfo`: the four configuration mappings. -/
structure ConfigInfo where
  path_list : List (String × PathInfo)
  tag_list : List (String × TagInfo)
  file_list : List (String × FileInfo)
  script_list : List (String × ScriptInfo)

/-- Rust struct `CopyConfig` (field `from`/`to` renamed, `from` is a Lean
keyword). -/
structure CopyConfig where
  fromLoc : Option String
  toLoc : Option String
  dry_run : Bool
  create_dir : Bool
  verbose : Nat

/-- The three panic sites of the program. -/
inductive CpxError where
  | fileNotFound (name : String)
  | srcPathNotFound
  | dstPathNotFound
deriving DecidableEq

/-- The `selected_files` vector built by `calculate_file_list` lines 109-126:
tag contributions in order (a missing tag or a tag without a file list
contributes nothing), then the explicit file names. -/
def ConfigInfo.selected_files (cfg : ConfigInfo)
    (tags files : Option (List String)) : List String :=
  (match tags with
    | some x => x.foldl (fun acc t =>
        match (lookupA cfg.tag_list t).bind (fun ti => ti.file_list) with
        | some item => acc ++ item
        | none => acc) []
    | none => []) ++
  (match files with
    | some x => x
    | none => [])

/-- The lookup pass of `calculate_file_list` lines 128-136: each selected
name is looked up in `file_list`; a missing name panics
(`expect("file .. not found in config")`), modelled as the first error. -/
def lookupFiles (cfg : ConfigInfo) : List String → Except CpxError (List FileInfo)
  | [] => .ok []
  | n :: rest =>
    match lookupA cfg.file_list n with
    | none => .error (.fileNotFound n)
    | some fi => (lookupFiles cfg rest).map (fun l => fi :: l)

/-- `HashSet::insert` step of collecting into a `HashSet<FileInfo>`. -/
def hsInsert (l : List FileInfo) (a : FileInfo) : List FileInfo :=
  if a ∈ l then l else l ++ [a]

/-- Collecting a list into a `HashSet<FileInfo>`, kept in first-occurrence
order. -/
def hsOfList (l : List FileInfo) : List FileInfo := l.foldl hsInsert []

/-- Rust `ConfigInfo::calculate_file_list` lines 104-137. -/
def ConfigInfo.calculate_file_list (cfg : ConfigInfo)
    (tags files : Option (List String)) : Except CpxError (List FileInfo) :=
  (lookupFiles cfg (cfg.selected_files tags files)).map hsOfList

/-- Rust struct `Cpx`. -/
structure Cpx where
  copy_config : CopyConfig
  file_config : ConfigInfo

/-- Rust `Cpx::src_path` lines 28-33. -/
def Cpx.src_path (c : Cpx) : Option PathBuf :=
  c.copy_config.fromLoc.bind
    (fun x => (lookupA c.file_config.path_list x).map (fun pi => pi.path))

/-- Rust `Cpx::dst_path` lines 35-40. -/
def Cpx.dst_path (c : Cpx) : Option PathBuf :=
  c.copy_config.toLoc.bind
    (fun x => (lookupA c.file_config.path_list x).map (fun pi => pi.path))

/-- Observable output of `execute_copy`: stdout report lines, the
`std::fs::copy` calls attempted, and stderr failure lines. -/
structure RunOutput where
  reports : List String
  attempts : List (PathBuf × PathBuf)
  failures : List String
deriving DecidableEq

/-- The stdout line of `execute_copy` line 48. -/
def reportLine (src dst : PathBuf) : String :=
  "Copy:\n" ++ src.display ++ "\nto:\n" ++ dst.display

/-- The stderr line of `execute_copy` lines 53-58 (error payload abstracted). -/
def failureLine (src dst : PathBuf) : String :=
  "Copy:\n" ++ src.display ++ "\nto:\n" ++ dst.display ++ "\nfailed"

/-- One iteration of the `for f in files` loop of `execute_copy` lines 43-61. -/
def copyOne (cc : CopyConfig) (fs : PathBuf → PathBuf → Bool)
    (fromP toP : PathBuf) (f : FileInfo) : RunOutput :=
  let src := fromP.join f.relative_path
  let dst := toP.join f.relative_path
  let rep := if cc.verbose > 0 || cc.dry_run then [reportLine src dst] else []
  if cc.dry_run then ⟨rep, [], []⟩
  else ⟨rep, [(src, dst)], if fs src dst then [] else [failureLine src dst]⟩

/-- Concatenation of loop-iteration outputs in order. -/
def outAppend (a b : RunOutput) : RunOutput :=
  ⟨a.reports ++ b.reports, a.attempts ++ b.attempts, a.failures ++ b.failures⟩

/-- Rust `Cpx::execute_copy` lines 42-62, over the copy set in iteration
order. -/
def Cpx.execute_copy (c : Cpx) (fromP toP : PathBuf) (files : List FileInfo)
    (fs : PathBuf → PathBuf → Bool) : RunOutput :=
  match files with
  | [] => ⟨[], [], []⟩
  | f :: rest =>
      outAppend (copyOne c.copy_config fs fromP toP f)
        (c.execute_copy fromP toP rest fs)

/-- Rust `Cpx::execute` lines 20-26: resolve the file list, then the source
path (`expect("src path not found")`), then the destination path
(`expect("dst path not found")`), then run the copy loop. An error result
means the corresponding panic fired before any copy was attempted. -/
def Cpx.execute (c : Cpx) (tags files : Option (List String))
    (fs : PathBuf → PathBuf → Bool) : Except CpxError RunOutput :=
  match c.file_config.calculate_file_list tags files with
  | .error e => .error e
  | .ok copy_files =>
    match c.src_path with
    | none => .error .srcPathNotFound
    | some fromP =>
      match c.dst_path with
      | none => .error .dstPathNotFound
      | some toP => .ok (c.execute_copy fromP toP copy_files fs)

/-- Process exit status: a panic (modelled error) aborts with Rust's panic
exit code 101; otherwise `main` falls through and the process exits 0 --
`main` lines 140-204 never inspect the copy results. -/
def exitCode (r : Except CpxError RunOutput) : Nat :=
  match r with
  | .error _ => 101
  | .ok _ => 0

/-- Splitting on a separator character, Rust `str::split(c)` semantics:
the empty string yields `[""]`, adjacent separators yield empty parts. -/
def splitChAux (sep : Char) : List Char → List Char → List String
  | [], acc => [String.mk acc.reverse]
  | c :: cs, acc =>
      if c = sep then String.mk acc.reverse :: splitChAux sep cs []
      else splitChAux sep cs (c :: acc)

/-- Rust `spec.split(':').collect()` from `main` line 195. -/
def splitCh (sep : Char) (s : String) : List String := splitChAux sep s.data []

/-- `main` lines 185-200: `from`/`to` are set only when the spec argument
splits on `:` into exactly two parts, otherwise both stay `None`. -/
def buildCopyConfig (spec : String) (dry_run : Bool) (verbose : Nat) : CopyConfig :=
  match splitCh ':' spec with
  | [a, b] => ⟨some a, some b, dry_run, true, verbose⟩
  | _ => ⟨none, none, dry_run, true, verbose⟩

/-- A concrete configuration used by the witness theorems: two locations,
a tag `t1` listing `f1` and `f2`, a script-only tag `tEmpty` with no file
list, and a file `falias` registered under a different name but with the
same relative path as `f1`. -/
def exCfg : ConfigInfo where
  path_list := [("locA", ⟨⟨true, ["srcbase"]⟩⟩), ("locB", ⟨⟨true, ["dstbase"]⟩⟩)]
  tag_list := [("t1", ⟨some ["f1", "f2"], none⟩), ("tEmpty", ⟨none, some ["s1"]⟩)]
  file_list := [("f1", ⟨⟨false, ["a"]⟩⟩), ("f2", ⟨⟨false, ["b"]⟩⟩),
                ("falias", ⟨⟨false, ["a"]⟩⟩)]
  script_list := []

/-- Concrete three-file copy set: the middle file is the one whose copy
will fail. -/
def files6 : List FileInfo := [⟨⟨false, ["x"]⟩⟩, ⟨⟨false, ["m"]⟩⟩, ⟨⟨false, ["y"]⟩⟩]

/-- Filesystem oracle that fails exactly on the middle file of `files6`
when copied out of base `/s`. -/
def fs6 : PathBuf → PathBuf → Bool :=
  fun src _ => !(src == PathBuf.mk true ["s", "m"])

/-- A concrete `Cpx` on `exCfg`, real run (no dry-run), verbose 0. -/
def cpx6 : Cpx := ⟨⟨some "locA", some "locB", false, true, 0⟩, exCfg⟩

/-! ### Helper lemmas -/

theorem hsInsert_nodup (acc : List FileInfo) (a : FileInfo) (h : acc.Nodup) :
    (hsInsert acc a).Nodup := by
  by_cases hm : a ∈ acc
  · simpa [hsInsert, hm] using h
  · simp [hsInsert, hm, List.nodup_append, h]

theorem foldl_hsInsert_nodup (l : List FileInfo) :
    ∀ acc : List FileInfo, acc.Nodup → (List.foldl hsInsert acc l).Nodup := by
  induction l with
  | nil => intro acc h; simpa using h
  | cons a l ih => intro acc h; exact ih (hsInsert acc a) (hsInsert_nodup acc a h)

theorem hsOfList_nodup (l : List FileInfo) : (hsOfList l).Nodup :=
  foldl_hsInsert_nodup l [] (by simp)

theorem lookupFiles_error_of_missing (cfg : ConfigInfo) :
    ∀ l : List String, (∃ n ∈ l, lookupA cfg.file_list n = none) →
      ∃ m, lookupFiles cfg l = .error (.fileNotFound m) := by
  intro l
  induction l with
  | nil => rintro ⟨n, hn, _⟩; exact absurd hn (List.not_mem_nil n)
  | cons a l ih =>
      rintro ⟨n, hn, hmiss⟩
      cases hla : lookupA cfg.file_list a with
      | none => exact ⟨a, by simp [lookupFiles, hla]⟩
      | some fi =>
          have hnl : n ∈ l := by
            rcases List.mem_cons.mp hn with h | h
            · subst h; rw [hla] at hmiss; cases hmiss
            · exact h
          obtain ⟨m, hm⟩ := ih ⟨n, hnl, hmiss⟩
          exact ⟨m, by simp [lookupFiles, hla, hm, Except.map]⟩

/-! ### Claim theorems -/

/-- C1: for every selection of tag names and file names, the copy set
returned by `calculate_file_list` contains no two entries with the same
relative path: entries registered under different names, or reached via
different tags or via both a tag and an explicit file name, collapse when
their relative paths are equal, because `FileInfo` equality is by
`relative_path` and the result is collected into a set. -/
theorem calculate_file_list_relpath_nodup (cfg : ConfigInfo)
    (tags files : Option (List String)) (res : List FileInfo)
    (h : cfg.calculate_file_list tags files = .ok res) :
    res.Pairwise (fun a b => a.relative_path ≠ b.relative_path) := by
  unfold ConfigInfo.calculate_file_list at h
  cases hl : lookupFiles cfg (cfg.selected_files tags files) with
  | error e => rw [hl] at h; simp [Except.map] at h
  | ok l =>
      rw [hl] at h
      simp [Except.map] at h
      subst h
      refine (hsOfList_nodup l).imp ?_
      intro a b hab heq
      exact hab (by cases a; cases b; simpa using heq)

/-- Witness for C1 at a concrete configuration: the tag `t1` contributes
`f1` and `f2`, and `falias` (same relative path as `f1`) is also selected
explicitly; the result has pairwise distinct relative paths. -/
theorem calculate_file_list_relpath_nodup_witness :
    List.Pairwise (fun a b => a.relative_path ≠ b.relative_path)
      [FileInfo.mk ⟨false, ["a"]⟩, FileInfo.mk ⟨false, ["b"]⟩] :=
  calculate_file_list_relpath_nodup exCfg (some ["t1"]) (some ["falias"]) _ (by rfl)

/-- C2: resolving a single known tag whose file list is `[x, y]`, with no
explicit files, where both names exist in the file mapping, returns exactly
the set of the two file entries: both are included and nothing else. -/
theorem calculate_single_tag (cfg : ConfigInfo) (t x y : String) (ti : TagInfo)
    (fx fy : FileInfo)
    (ht : lookupA cfg.tag_list t = some ti) (hl : ti.file_list = some [x, y])
    (hx : lookupA cfg.file_list x = some fx) (hy : lookupA cfg.file_list y = some fy) :
    ∃ res, cfg.calculate_file_list (some [t]) none = .ok res ∧
      ∀ z, (z ∈ res ↔ z = fx ∨ z = fy) := by
  have hsel : cfg.selected_files (some [t]) none = [x, y] := by
    simp [ConfigInfo.selected_files, ht, hl]
  refine ⟨hsOfList [fx, fy], ?_, ?_⟩
  · unfold ConfigInfo.calculate_file_list
    rw [hsel]
    simp [lookupFiles, hx, hy, Except.map]
  · intro z
    by_cases hxy : fx = fy
    · subst hxy
      simp [hsOfList, hsInsert]
    · simp [hsOfList, hsInsert, Ne.symm hxy]

/-- Witness for C2: on `exCfg`, tag `t1` lists `f1` and `f2`, and the
resolution is exactly the two corresponding entries. -/
theorem calculate_single_tag_witness :
    ∃ res, exCfg.calculate_file_list (some ["t1"]) none = .ok res ∧
      ∀ z, (z ∈ res ↔ z = FileInfo.mk ⟨false, ["a"]⟩ ∨ z = FileInfo.mk ⟨false, ["b"]⟩) :=
  calculate_single_tag exCfg "t1" "f1" "f2" ⟨some ["f1", "f2"], none⟩ _ _
    (by rfl) (by rfl) (by rfl) (by rfl)

/-- C3: a tag name absent from the tag mapping, or a tag whose file list is
absent, contributes nothing to the resolution and raises no error; in
particular resolving it alone with no files yields the empty set. -/
theorem unknown_tag_contributes_nothing (cfg : ConfigInfo) (t : String)
    (rest : List String) (files : Option (List String))
    (h : lookupA cfg.tag_list t = none ∨
         ∃ ti, lookupA cfg.tag_list t = some ti ∧ ti.file_list = none) :
    cfg.calculate_file_list (some (t :: rest)) files
      = cfg.calculate_file_list (some rest) files ∧
    cfg.calculate_file_list (some [t]) none = .ok [] := by
  have hb : (lookupA cfg.tag_list t).bind (fun ti => ti.file_list) = none := by
    rcases h with h | ⟨ti, h1, h2⟩
    · rw [h]; rfl
    · rw [h1]; simp [h2]
  constructor
  · unfold ConfigInfo.calculate_file_list
    have hsel : cfg.selected_files (some (t :: rest)) files
        = cfg.selected_files (some rest) files := by
      simp [ConfigInfo.selected_files, hb]
    rw [hsel]
  · have h0 : cfg.selected_files (some [t]) none = [] := by
      simp [ConfigInfo.selected_files, hb]
    unfold ConfigInfo.calculate_file_list
    rw [h0]
    simp [lookupFiles, Except.map, hsOfList]

/-- Witness for C3: the tag `ghost` is not in `exCfg`; it is a silent no-op
next to `t1`, and alone it resolves to the empty set. -/
theorem unknown_tag_witness :
    exCfg.calculate_file_list (some ["ghost", "t1"]) none
      = exCfg.calculate_file_list (some ["t1"]) none ∧
    exCfg.calculate_file_list (some ["ghost"]) none = .ok [] :=
  unknown_tag_contributes_nothing exCfg "ghost" ["t1"] none (Or.inl (by rfl))

/-- C4: if any name in the resolution list (explicit or contributed by a
tag) is absent from the file mapping, `execute` fails with the fatal
file-lookup failure; the error result means the panic fired inside
`calculate_file_list`, before `execute_copy` ran, so no copy was attempted. -/
theorem missing_file_aborts_before_copy (c : Cpx) (tags files : Option (List String))
    (fs : PathBuf → PathBuf → Bool)
    (h : ∃ n ∈ c.file_config.selected_files tags files,
           lookupA c.file_config.file_list n = none) :
    ∃ m, c.execute tags files fs = .error (.fileNotFound m) := by
  obtain ⟨m, hm⟩ := lookupFiles_error_of_missing c.file_config _ h
  have hc : c.file_config.calculate_file_list tags files
      = .error (.fileNotFound m) := by
    unfold ConfigInfo.calculate_file_list
    rw [hm]
    rfl
  exact ⟨m, by simp [Cpx.execute, hc]⟩

/-- Witness for C4: selecting the unregistered file name `nope` on `exCfg`
makes the run abort with the file-lookup failure. -/
theorem missing_file_witness :
    ∃ m, Cpx.execute ⟨⟨some "locA", some "locB", false, true, 0⟩, exCfg⟩
        none (some ["nope"]) (fun _ _ => true) = .error (.fileNotFound m) :=
  missing_file_aborts_before_copy _ none (some ["nope"]) _
    ⟨"nope", by decide, by rfl⟩

/-- Characterisation of a real (non-dry) run of `execute_copy`: every file
in the copy set is attempted (one `std::fs::copy` call each, in order), and
the stderr failure lines are exactly those of the files whose copy the
filesystem refuses. Shared helper for the executor claims. -/
theorem execute_copy_real_run (c : Cpx) (fromP toP : PathBuf)
    (fs : PathBuf → PathBuf → Bool) (hd : c.copy_config.dry_run = false) :
    ∀ files : List FileInfo,
      (c.execute_copy fromP toP files fs).attempts
        = files.map (fun f => (fromP.join f.relative_path, toP.join f.relative_path)) ∧
      (c.execute_copy fromP toP files fs).failures
        = (files.filter
            (fun f => ! fs (fromP.join f.relative_path) (toP.join f.relative_path))).map
            (fun f => failureLine (fromP.join f.relative_path) (toP.join f.relative_path)) := by
  intro files
  induction files with
  | nil => simp [Cpx.execute_copy]
  | cons f rest ih =>
      obtain ⟨ih1, ih2⟩ := ih
      by_cases hfs : fs (fromP.join f.relative_path) (toP.join f.relative_path) = true
      · simp [Cpx.execute_copy, copyOne, outAppend, hd, hfs, ih1, ih2]
      · simp only [Bool.not_eq_true] at hfs
        simp [Cpx.execute_copy, copyOne, outAppend, hd, hfs, ih1, ih2]

/-- C5: over any copy set and base paths, a dry run produces exactly the
report lines a real run with `verbose >= 1` would produce, and performs no
filesystem write: no `std::fs::copy` call is attempted and no failure line
is emitted. -/
theorem dry_run_matches_verbose_run (c cR : Cpx) (fromP toP : PathBuf)
    (files : List FileInfo) (fs : PathBuf → PathBuf → Bool)
    (hd : c.copy_config.dry_run = true)
    (hrd : cR.copy_config.dry_run = false)
    (hrv : 1 ≤ cR.copy_config.verbose) :
    (c.execute_copy fromP toP files fs).reports
        = (cR.execute_copy fromP toP files fs).reports ∧
    (c.execute_copy fromP toP files fs).attempts = [] ∧
    (c.execute_copy fromP toP files fs).failures = [] := by
  induction files with
  | nil => simp [Cpx.execute_copy]
  | cons f rest ih =>
      obtain ⟨ih1, ih2, ih3⟩ := ih
      have hv : 0 < cR.copy_config.verbose := hrv
      simp [Cpx.execute_copy, copyOne, outAppend, hd, hrd, hv, ih1, ih2, ih3]

/-- Witness for C5: a dry run at verbose 0 and a real run at verbose 1 over
a one-file copy set report the same lines, and the dry run attempts nothing. -/
theorem dry_run_witness :
    (Cpx.execute_copy ⟨⟨some "locA", some "locB", true, true, 0⟩, exCfg⟩
        ⟨true, ["s"]⟩ ⟨true, ["d"]⟩ [⟨⟨false, ["a"]⟩⟩] (fun _ _ => true)).reports
      = (Cpx.execute_copy ⟨⟨some "locA", some "locB", false, true, 1⟩, exCfg⟩
        ⟨true, ["s"]⟩ ⟨true, ["d"]⟩ [⟨⟨false, ["a"]⟩⟩] (fun _ _ => true)).reports ∧
    (Cpx.execute_copy ⟨⟨some "locA", some "locB", true, true, 0⟩, exCfg⟩
        ⟨true, ["s"]⟩ ⟨true, ["d"]⟩ [⟨⟨false, ["a"]⟩⟩] (fun _ _ => true)).attempts = [] ∧
    (Cpx.execute_copy ⟨⟨some "locA", some "locB", true, true, 0⟩, exCfg⟩
        ⟨true, ["s"]⟩ ⟨true, ["d"]⟩ [⟨⟨false, ["a"]⟩⟩] (fun _ _ => true)).failures = [] :=
  dry_run_matches_verbose_run _ _ _ _ _ _ (by rfl) (by rfl) (by decide)

/-- C6: in a real run, a copy failure for one file does not abort the rest:
every entry of the copy set is attempted regardless of which copies fail,
and exactly the failing entries are reported on the error channel. -/
theorem copy_failure_does_not_abort (c : Cpx) (fromP toP : PathBuf)
    (files : List FileInfo) (fs : PathBuf → PathBuf → Bool)
    (hd : c.copy_config.dry_run = false) :
    (c.execute_copy fromP toP files fs).attempts
        = files.map (fun f => (fromP.join f.relative_path, toP.join f.relative_path)) ∧
    (c.execute_copy fromP toP files fs).failures
        = (files.filter
            (fun f => ! fs (fromP.join f.relative_path) (toP.join f.relative_path))).map
            (fun f => failureLine (fromP.join f.relative_path) (toP.join f.relative_path)) :=
  execute_copy_real_run c fromP toP fs hd files

/-- Witness for C6, the three-file scenario of the spec: the middle file's
copy fails, all three are still attempted, and exactly one failure line is
reported. -/
theorem copy_failure_witness :
    (Cpx.execute_copy cpx6 ⟨true, ["s"]⟩ ⟨true, ["d"]⟩ files6 fs6).attempts
      = files6.map (fun f => (PathBuf.join ⟨true, ["s"]⟩ f.relative_path,
          PathBuf.join ⟨true, ["d"]⟩ f.relative_path)) ∧
    (Cpx.execute_copy cpx6 ⟨true, ["s"]⟩ ⟨true, ["d"]⟩ files6 fs6).failures
      = (files6.filter
          (fun f => ! fs6 (PathBuf.join ⟨true, ["s"]⟩ f.relative_path)
              (PathBuf.join ⟨true, ["d"]⟩ f.relative_path))).map
          (fun f => failureLine (PathBuf.join ⟨true, ["s"]⟩ f.relative_path)
              (PathBuf.join ⟨true, ["d"]⟩ f.relative_path)) :=
  copy_failure_does_not_abort cpx6 ⟨true, ["s"]⟩ ⟨true, ["d"]⟩ files6 fs6 (by rfl)

/-- C7 counterexample: a full run on `exCfg` copying `f1` with a filesystem
that refuses every copy ends normally: the result is `ok` with a failure
line recorded on the error channel, and the exit code is 0 (complete
success), not a non-zero degraded status -- `main` never inspects the copy
results. -/
theorem copy_failure_exit_zero_counterexample :
    Cpx.execute ⟨⟨some "locA", some "locB", false, true, 0⟩, exCfg⟩
        none (some ["f1"]) (fun _ _ => false)
      = .ok ⟨[], [(⟨true, ["srcbase", "a"]⟩, ⟨true, ["dstbase", "a"]⟩)],
             [failureLine ⟨true, ["srcbase", "a"]⟩ ⟨true, ["dstbase", "a"]⟩]⟩ ∧
    exitCode (Cpx.execute ⟨⟨some "locA", some "locB", false, true, 0⟩, exCfg⟩
        none (some ["f1"]) (fun _ _ => false)) = 0 :=
  ⟨by rfl, by rfl⟩

/-- C7 (amended): a per-file copy failure is reported on the error channel
but has no effect on the process status: a run that reaches the copy loop
ends with exit code 0 even when some copies failed. -/
theorem copy_failure_reported_but_exit_zero (c : Cpx) (fromP toP : PathBuf)
    (files : List FileInfo) (fs : PathBuf → PathBuf → Bool) (f : FileInfo)
    (hd : c.copy_config.dry_run = false) (hf : f ∈ files)
    (hfail : fs (fromP.join f.relative_path) (toP.join f.relative_path) = false) :
    failureLine (fromP.join f.relative_path) (toP.join f.relative_path)
        ∈ (c.execute_copy fromP toP files fs).failures ∧
    exitCode (.ok (c.execute_copy fromP toP files fs)) = 0 := by
  refine ⟨?_, rfl⟩
  rw [(execute_copy_real_run c fromP toP fs hd files).2]
  refine List.mem_map.mpr ⟨f, List.mem_filter.mpr ⟨hf, ?_⟩, rfl⟩
  simp [hfail]

/-- Witness for the amended C7 on the three-file scenario: the middle
file's failure line is reported, and the run's exit code is 0. -/
theorem copy_failure_exit_zero_witness :
    failureLine (PathBuf.join ⟨true, ["s"]⟩ ⟨false, ["m"]⟩)
        (PathBuf.join ⟨true, ["d"]⟩ ⟨false, ["m"]⟩)
        ∈ (Cpx.execute_copy cpx6 ⟨true, ["s"]⟩ ⟨true, ["d"]⟩ files6 fs6).failures ∧
    exitCode (.ok (Cpx.execute_copy cpx6 ⟨true, ["s"]⟩ ⟨true, ["d"]⟩ files6 fs6)) = 0 :=
  copy_failure_reported_but_exit_zero cpx6 _ _ files6 fs6 ⟨⟨false, ["m"]⟩⟩
    (by rfl) (by decide) (by decide)

/-- C8: a spec argument that does not split on `:` into exactly two names
leaves both location names unset, and (once file resolution has succeeded)
the run fails with the fatal source-path resolution failure, so
`execute_copy` is never reached. -/
theorem malformed_spec_fails_path_resolution (spec : String) (dr : Bool) (v : Nat)
    (cfg : ConfigInfo) (tags files : Option (List String))
    (fs : PathBuf → PathBuf → Bool) (l : List FileInfo)
    (hlen : (splitCh ':' spec).length ≠ 2)
    (hok : cfg.calculate_file_list tags files = .ok l) :
    (buildCopyConfig spec dr v).fromLoc = none ∧
    (buildCopyConfig spec dr v).toLoc = none ∧
    Cpx.execute ⟨buildCopyConfig spec dr v, cfg⟩ tags files fs
      = .error .srcPathNotFound := by
  have hcc : buildCopyConfig spec dr v = ⟨none, none, dr, true, v⟩ := by
    unfold buildCopyConfig
    cases hsp : splitCh ':' spec with
    | nil => rfl
    | cons a t =>
        cases t with
        | nil => rfl
        | cons b t2 =>
            cases t2 with
            | nil => exact absurd (by rw [hsp]; rfl) hlen
            | cons e t3 => rfl
  have hsrc : (Cpx.mk (buildCopyConfig spec dr v) cfg).src_path = none := by
    simp [Cpx.src_path, hcc]
  exact ⟨by rw [hcc], by rw [hcc], by simp [Cpx.execute, hok, hsrc]⟩

/-- Witness for C8: the three-part spec `a:b:c` leaves the locations unset
and the (empty-selection) run aborts at source-path resolution. -/
theorem malformed_spec_witness :
    (splitCh ':' "a:b:c").length ≠ 2 ∧
    exCfg.calculate_file_list none none = .ok [] ∧
    Cpx.execute ⟨buildCopyConfig "a:b:c" false 0, exCfg⟩ none none
      (fun _ _ => true) = .error .srcPathNotFound :=
  ⟨by decide, by rfl,
   (malformed_spec_fails_path_resolution "a:b:c" false 0 exCfg none none
      (fun _ _ => true) [] (by decide) (by rfl)).2.2⟩

theorem isLeading_refl (a : List String) : isLeading a a = true := by
  induction a with
  | nil => rfl
  | cons x xs ih => simp [isLeading, ih]

theorem isLeading_append_self (a b : List String) : isLeading a (a ++ b) = true := by
  induction a with
  | nil => rfl
  | cons x xs ih => simp [isLeading, ih]

theorem isLeading_trans (a : List String) : ∀ b c, isLeading a b = true →
    isLeading b c = true → isLeading a c = true := by
  induction a with
  | nil => intro b c _ _; rfl
  | cons x xs ih =>
      intro b c hab hbc
      cases b with
      | nil => simp [isLeading] at hab
      | cons y ys =>
          cases c with
          | nil => simp [isLeading] at hbc
          | cons z zs =>
              simp only [isLeading, Bool.and_eq_true, beq_iff_eq] at hab hbc ⊢
              exact ⟨hab.1.trans hbc.1, ih ys zs hab.2 hbc.2⟩

theorem foldl_normStep_leading (r : List String) : ∀ acc : List String, ".." ∉ r →
    isLeading acc (r.foldl (fun acc c =>
      if c = ".." then acc.dropLast else if c = "." then acc else acc ++ [c]) acc)
      = true := by
  induction r with
  | nil => intro acc _; exact isLeading_refl acc
  | cons c r ih =>
      intro acc hdd
      have hc : c ≠ ".." := fun h => hdd (by simp [h])
      have hr : ".." ∉ r := fun h => hdd (List.mem_cons_of_mem c h)
      by_cases hdot : c = "."
      · simpa [List.foldl_cons, hc, hdot] using ih acc hr
      · have h1 := ih (acc ++ [c]) hr
        have h2 := isLeading_append_self acc [c]
        have h3 := isLeading_trans acc (acc ++ [c]) _ h2 h1
        simpa [List.foldl_cons, hc, hdot] using h3

/-- Joining a non-absolute relative path free of `..` segments stays inside
the base: the containment half of the amended C9. -/
theorem join_isInside (base rel : PathBuf) (habs : rel.absolute = false)
    (hdd : ".." ∉ rel.components) : isInside base (base.join rel) = true := by
  have hj : base.join rel = ⟨base.absolute, base.components ++ rel.components⟩ := by
    simp [PathBuf.join, habs]
  rw [hj]
  have hfold : normComps (base.components ++ rel.components)
      = rel.components.foldl (fun acc c =>
          if c = ".." then acc.dropLast else if c = "." then acc else acc ++ [c])
        (normComps base.components) := by
    simp [normComps, List.foldl_append]
  simp [isInside, hfold,
    foldl_normStep_leading rel.components (normComps base.components) hdd]

/-- C9 counterexample: the executor performs no validation of relative
paths. A file entry whose relative path contains a `..` segment is joined
blindly onto both bases, and the resulting source and destination paths
escape them. -/
theorem path_escape_counterexample :
    (Cpx.execute_copy cpx6 ⟨true, ["data"]⟩ ⟨true, ["data2"]⟩
        [⟨⟨false, ["..", "secret"]⟩⟩] (fun _ _ => true)).attempts
      = [(⟨true, ["data", "..", "secret"]⟩, ⟨true, ["data2", "..", "secret"]⟩)] ∧
    isInside ⟨true, ["data"]⟩ ⟨true, ["data", "..", "secret"]⟩ = false ∧
    isInside ⟨true, ["data2"]⟩ ⟨true, ["data2", "..", "secret"]⟩ = false :=
  ⟨by rfl, by rfl, by rfl⟩

/-- C9 (amended): the executor joins relative paths onto the bases without
any validation, so containment holds only for well-behaved entries: for
every file entry whose relative path is not absolute and has no `..`
segment, the attempted source and destination paths lie inside the
respective bases. -/
theorem clean_relative_path_stays_inside (c : Cpx) (fromP toP : PathBuf)
    (files : List FileInfo) (fs : PathBuf → PathBuf → Bool) (f : FileInfo)
    (hd : c.copy_config.dry_run = false) (hf : f ∈ files)
    (habs : f.relative_path.absolute = false)
    (hdd : ".." ∉ f.relative_path.components) :
    (fromP.join f.relative_path, toP.join f.relative_path)
        ∈ (c.execute_copy fromP toP files fs).attempts ∧
    isInside fromP (fromP.join f.relative_path) = true ∧
    isInside toP (toP.join f.relative_path) = true := by
  refine ⟨?_, join_isInside fromP f.relative_path habs hdd,
    join_isInside toP f.relative_path habs hdd⟩
  rw [(execute_copy_real_run c fromP toP fs hd files).1]
  exact List.mem_map.mpr ⟨f, hf, rfl⟩

/-- Witness for the amended C9: the first file of the three-file scenario
has a clean relative path and its attempted copy stays inside both bases. -/
theorem clean_relative_path_witness :
    (PathBuf.join ⟨true, ["s"]⟩ ⟨false, ["x"]⟩, PathBuf.join ⟨true, ["d"]⟩ ⟨false, ["x"]⟩)
        ∈ (Cpx.execute_copy cpx6 ⟨true, ["s"]⟩ ⟨true, ["d"]⟩ files6 fs6).attempts ∧
    isInside ⟨true, ["s"]⟩ (PathBuf.join ⟨true, ["s"]⟩ ⟨false, ["x"]⟩) = true ∧
    isInside ⟨true, ["d"]⟩ (PathBuf.join ⟨true, ["d"]⟩ ⟨false, ["x"]⟩) = true :=
  clean_relative_path_stays_inside cpx6 _ _ files6 fs6 ⟨⟨false, ["x"]⟩⟩
    (by rfl) (by decide) (by rfl) (by decide)

/-- C10: `execute` resolves the file list first and the two location paths
unconditionally afterwards, for every configuration including dry runs: a
file-lookup failure is the error raised even when the locations are also
invalid, and a missing source (resp. destination) location aborts the run
regardless of the dry-run flag. -/
theorem execute_lookup_order (c : Cpx) (tags files : Option (List String))
    (fs : PathBuf → PathBuf → Bool) :
    (∀ e, c.file_config.calculate_file_list tags files = .error e →
        c.execute tags files fs = .error e) ∧
    (∀ l, c.file_config.calculate_file_list tags files = .ok l →
        c.src_path = none → c.execute tags files fs = .error .srcPathNotFound) ∧
    (∀ l p, c.file_config.calculate_file_list tags files = .ok l →
        c.src_path = some p → c.dst_path = none →
        c.execute tags files fs = .error .dstPathNotFound) := by
  refine ⟨fun e he => by simp [Cpx.execute, he],
          fun l hl hs => by simp [Cpx.execute, hl, hs],
          fun l p hl hs hd => by simp [Cpx.execute, hl, hs, hd]⟩

/-- Witness for C10: with both locations unknown and dry-run set, the
unknown file `nope` is the failure raised; with a known file, an unknown
source (resp. destination) location aborts even under dry-run. -/
theorem execute_lookup_order_witness :
    Cpx.execute ⟨⟨some "nowhere", some "nowhere", true, true, 0⟩, exCfg⟩
        none (some ["nope"]) (fun _ _ => true) = .error (.fileNotFound "nope") ∧
    Cpx.execute ⟨⟨some "nowhere", some "locB", true, true, 0⟩, exCfg⟩
        none (some ["f1"]) (fun _ _ => true) = .error .srcPathNotFound ∧
    Cpx.execute ⟨⟨some "locA", some "nowhere", true, true, 0⟩, exCfg⟩
        none (some ["f1"]) (fun _ _ => true) = .error .dstPathNotFound :=
  ⟨(execute_lookup_order ⟨⟨some "nowhere", some "nowhere", true, true, 0⟩, exCfg⟩
      none (some ["nope"]) (fun _ _ => true)).1 (.fileNotFound "nope") (by rfl),
   (execute_lookup_order ⟨⟨some "nowhere", some "locB", true, true, 0⟩, exCfg⟩
      none (some ["f1"]) (fun _ _ => true)).2.1 _ (by rfl) (by rfl),
   (execute_lookup_order ⟨⟨some "locA", some "nowhere", true, true, 0⟩, exCfg⟩
      none (some ["f1"]) (fun _ _ => true)).2.2 _ _ (by rfl) (by rfl) (by rfl)⟩
